import Mathlib

/-!
A verification development for the StillFace pipeline
(`StillFace/sync_and_cut/{sync.py, cut.py, visualize.py}`).

The Python modules are shallowly embedded: paths are strings, the
filesystem is an association list from path to file content, external
subprocess side effects (ffmpeg via `os.system`, the `avst` alignment
primitives, ffprobe) are an explicit environment `Env`, and every
externally visible action is recorded in an event trace.  Python
exceptions are modelled with `Except PyErr`.  Append-only ledger text
files (`synced_sessions.txt`, `failed_sessions.txt`) are modelled as the
list of their lines.  Filesystem effects that precede an uncaught
exception inside one session are dropped by the batch state; no theorem
below depends on them.
-/

set_option maxRecDepth 40000

deriving instance DecidableEq for Except

namespace StillFace

/-- A filesystem path (Python `pathlib.Path`), as its string form. -/
abbrev Path := String

/-- The filesystem: existing files with their byte content. -/
abbrev FS := List (Path × String)

/-- `Path.exists()` against the modelled filesystem. -/
def FS.exists (fs : FS) (p : Path) : Bool := fs.any (fun e => e.1 == p)

/-- Read a file's content (`none` if absent). -/
def FS.read (fs : FS) (p : Path) : Option String :=
  (fs.find? (fun e => e.1 == p)).map (fun e => e.2)

/-- Create or overwrite a file. -/
def FS.write (fs : FS) (p : Path) (c : String) : FS :=
  (p, c) :: fs.filter (fun e => !(e.1 == p))

/-- Python exceptions that the embedded code can raise. -/
inductive PyErr where
  | typeError
  | attributeError
  | valueError
  | keyError
  | fileNotFoundError
deriving DecidableEq, Repr

/-- Externally visible operations performed by the pipeline. -/
inductive Event where
  /-- `os.system(cmd)` — ffmpeg transcode / trim / stack. -/
  | system (cmd : String)
  /-- `shutil.copy(src, dst)`. -/
  | copy (src dst : Path)
  /-- `avst.sync.sync_videos` — pairwise alignment writing both outputs. -/
  | alignPair (v1 v2 o1 o2 : Path) (viz : Option Path)
  /-- `avst.sync.sync_to_reference` — one-sided alignment. -/
  | alignRef (ref target out : Path) (viz : Option Path)
  /-- `avst.io.get_video_fps` probe. -/
  | probeFps (p : Path)
  /-- `ffprobe` duration probe (`get_video_duration` in visualize.py). -/
  | probeDuration (p : Path)
deriving DecidableEq, Repr

/-- Is the event an `os.system` invocation? -/
def Event.isSystem : Event → Bool
  | .system _ => true
  | _ => false

/-- Is the event a duration probe? -/
def Event.isDurationProbe : Event → Bool
  | .probeDuration _ => true
  | _ => false

/-- The external world: exit codes and file effects of `os.system`
commands, probe answers, and alignment offsets.  Frame rates are in
milli-fps so that the source's float comparison `abs(fps - 60) > 0.01`
is the exact integer comparison `|fps_millis - 60000| > 10`; durations
are in whole seconds. -/
structure Env where
  systemCode : String → Int
  systemFS : String → FS → FS
  fpsMillis : Path → Int
  durationSec : Path → Int
  syncOffset : Path → Path → Int

/-- `os.system(cmd)`: returns the exit code, applies the command's file
effects, and records the invocation. -/
def os_system (env : Env) (fs : FS) (cmd : String) : Int × FS × List Event :=
  (env.systemCode cmd, env.systemFS cmd fs, [.system cmd])

/-- `shutil.copy(src, dst)`: raises `FileNotFoundError` if the source is
absent, otherwise duplicates its content at `dst`. -/
def shutil_copy (fs : FS) (src dst : Path) : Except PyErr (FS × List Event) :=
  match fs.read src with
  | none => .error .fileNotFoundError
  | some c => .ok (fs.write dst c, [.copy src dst])

/-- `avst.io.get_video_fps`: probe a video's frame rate (milli-fps). -/
def get_video_fps (env : Env) (p : Path) : Int × List Event :=
  (env.fpsMillis p, [.probeFps p])

/-- `avst.sync.sync_videos`: external pairwise alignment.  Modelled as
always succeeding: it writes both aligned outputs (and the optional
side-by-side video) and returns the environment's offset. -/
def sync_videos_ext (env : Env) (fs : FS) (v1 v2 o1 o2 : Path) (viz : Option Path) :
    Int × FS × List Event :=
  let fs1 := (fs.write o1 ("aligned:" ++ v1)).write o2 ("aligned:" ++ v2)
  let fs2 := match viz with
    | some p => fs1.write p ("side-by-side:" ++ v1 ++ "+" ++ v2)
    | none => fs1
  (env.syncOffset v1 v2, fs2, [.alignPair v1 v2 o1 o2 viz])

/-- `avst.sync.sync_to_reference`: external one-sided alignment of
`target` against `ref`, writing the aligned `target` only. -/
def sync_to_reference_ext (env : Env) (fs : FS) (ref target out : Path) (viz : Option Path) :
    Int × FS × List Event :=
  let fs1 := fs.write out ("aligned:" ++ target)
  let fs2 := match viz with
    | some p => fs1.write p ("side-by-side:" ++ ref ++ "+" ++ target)
    | none => fs1
  (env.syncOffset ref target, fs2, [.alignRef ref target out viz])

/-- Python `str.split(sep)` with a one-character separator (auxiliary
recursion carrying the current chunk, reversed). -/
def splitCharAux (sep : Char) : List Char → List Char → List String
  | [], acc => [String.mk acc.reverse]
  | c :: cs, acc =>
    if c = sep then String.mk acc.reverse :: splitCharAux sep cs []
    else splitCharAux sep cs (c :: acc)

/-- Python `s.split(sep)` for a one-character separator. -/
def pySplit (s : String) (sep : Char) : List String := splitCharAux sep s.data []

/-- Python `s.startswith(pre)`. -/
def pyStartswith (s pre : String) : Bool := pre.data.isPrefixOf s.data

/-- Python `int(s)`: optional surrounding spaces, an optional sign,
then at least one decimal digit; anything else raises `ValueError`. -/
def pyInt (s : String) : Except PyErr Int :=
  let t := (s.data.dropWhile (fun c => c = ' ')).reverse.dropWhile (fun c => c = ' ') |>.reverse
  let core := match t with
    | '-' :: rest => rest
    | '+' :: rest => rest
    | other => other
  if core.length > 0 && core.all Char.isDigit then
    let n : Nat := core.foldl (fun acc c => acc * 10 + (c.toNat - 48)) 0
    .ok (match t with
      | '-' :: _ => -(n : Int)
      | _ => (n : Int))
  else .error .valueError

/-- Python `str(x)` for the optional offset written to the completed
ledger (`str(None) = "None"`). -/
def pyStr : Option Int → String
  | none => "None"
  | some n => toString n

/-- The last element of a list of path components. -/
def lastComponent : List String → String
  | [] => ""
  | [x] => x
  | _ :: x :: xs => lastComponent (x :: xs)

/-- `pathlib.Path(p).stem`: the final path component without its last
dotted suffix (matches pathlib on the `name.mp4`-shaped names that the
pipeline produces). -/
def stem (p : Path) : String :=
  let name := lastComponent (pySplit p '/')
  match (pySplit name '.').dropLast with
  | [] => name
  | parts => String.intercalate "." parts

namespace Sync

/-- The per-session camera inventory: `get_available_cameras`'s dict,
one optional path per fixed channel role. -/
structure CamMap where
  mother : Option Path
  baby : Option Path
  window : Option Path
  door : Option Path
deriving DecidableEq, Repr

/-- `sync.py convert_to_60fps`: skip if the output already exists,
otherwise run the ffmpeg resample command; the exit code is read but
never inspected, and the output path is returned unconditionally. -/
def convert_to_60fps (env : Env) (fs : FS) (input_path output_path : Path) :
    Path × FS × List Event :=
  if fs.exists output_path then (output_path, fs, [])
  else
    let cmd := s!"ffmpeg -hide_banner -loglevel error -y -i {input_path} -r 60 {output_path}"
    let (_result, fs1, ev) := os_system env fs cmd
    (output_path, fs1, ev)

/-- `sync.py get_available_cameras`: test existence of the four expected
raw files under `session_dir/original`. -/
def get_available_cameras (fs : FS) (session_dir : Path) : CamMap :=
  let original_dir := session_dir ++ "/original"
  { mother := if fs.exists (original_dir ++ "/mother.mp4") then some (original_dir ++ "/mother.mp4") else none
    baby := if fs.exists (original_dir ++ "/baby.mp4") then some (original_dir ++ "/baby.mp4") else none
    window := if fs.exists (original_dir ++ "/window.MTS") then some (original_dir ++ "/window.MTS") else none
    door := if fs.exists (original_dir ++ "/door.MTS") then some (original_dir ++ "/door.MTS") else none }

/-- One wide-angle block of `prepare_original_videos` (the window and
door blocks are verbatim duplicates in the source): resample to 60 fps
when the probed rate deviates by more than 0.01 fps, else copy the MTS
to MP4 unless the MP4 already exists. -/
def prepare_channel (env : Env) (fs : FS) (original_dir : Path) (cam_name : String) (mts : Path) :
    Except PyErr (Path × FS × List Event) :=
  let mp4 := original_dir ++ "/" ++ cam_name ++ ".mp4"
  let (fpsv, ev0) := get_video_fps env mts
  if 10 < (fpsv - 60000).natAbs then
    let (p, fs1, ev1) := convert_to_60fps env fs mts mp4
    .ok (p, fs1, ev0 ++ ev1)
  else if fs.exists mp4 then .ok (mp4, fs, ev0)
  else
    match shutil_copy fs mts mp4 with
    | .error e => .error e
    | .ok (fs1, ev1) => .ok (mp4, fs1, ev0 ++ ev1)

/-- `sync.py prepare_original_videos`: convert window/door MTS captures
to 60 fps MP4 (mother/baby pass through untouched). -/
def prepare_original_videos (env : Env) (fs : FS) (session_dir : Path) (cameras : CamMap) :
    Except PyErr (CamMap × FS × List Event) := do
  let original_dir := session_dir ++ "/original"
  let (wRes, fs1, ev1) ←
    match cameras.window with
    | none => Except.ok (cameras.window, fs, ([] : List Event))
    | some mts => do
        let (p, fs1, ev) ← prepare_channel env fs original_dir "window" mts
        Except.ok (some p, fs1, ev)
  let (dRes, fs2, ev2) ←
    match cameras.door with
    | none => Except.ok (cameras.door, fs1, ([] : List Event))
    | some mts => do
        let (p, fs2, ev) ← prepare_channel env fs1 original_dir "door" mts
        Except.ok (some p, fs2, ev)
  Except.ok ({ cameras with window := wRes, door := dRes }, fs2, ev1 ++ ev2)

/-- `sync.py sync_mother_baby`: align mother and baby when both are
present, otherwise copy through whichever one exists.  There is no
existing-output check on the synced paths.  Returns the synced
mother/baby paths and the pairwise offset. -/
def sync_mother_baby (env : Env) (fs : FS) (session_dir : Path)
    (mother_path baby_path : Option Path) (visualize : Bool) :
    Except PyErr ((Option Path × Option Path) × Option Int × FS × List Event) :=
  let synced_dir := session_dir ++ "/synced"
  let synced_mother := synced_dir ++ "/mother.mp4"
  let synced_baby := synced_dir ++ "/baby.mp4"
  let synced_session_mb := synced_dir ++ "/session_mb.mp4"
  match mother_path, baby_path with
  | some m, some b =>
      let (off, fs1, ev) := sync_videos_ext env fs m b synced_mother synced_baby
        (if visualize then some synced_session_mb else none)
      .ok ((some synced_mother, some synced_baby), some off, fs1, ev)
  | none, some b =>
      match shutil_copy fs b synced_baby with
      | .error e => .error e
      | .ok (fs1, ev) => .ok ((none, some synced_baby), none, fs1, ev)
  | some m, none =>
      match shutil_copy fs m synced_mother with
      | .error e => .error e
      | .ok (fs1, ev) => .ok ((some synced_mother, none), none, fs1, ev)
  | none, none => .ok ((none, none), none, fs, [])

/-- `sync.py sync_auxiliary_camera`: the source computes the
visualization name `session_{reference_path.stem}_{cam_name}.mp4`
*before* its `reference_path is None` check, so a `None` reference
raises `AttributeError` here and the copy-through branch guarded by
`reference_path is None or cam_path == reference_path` is reachable
only through `cam_path == reference_path`. -/
def sync_auxiliary_camera (env : Env) (fs : FS) (session_dir : Path)
    (cam_name : String) (cam_path : Path) (reference_path : Option Path) (visualize : Bool) :
    Except PyErr ((Path × Option Int) × FS × List Event) :=
  let synced_dir := session_dir ++ "/synced"
  let synced_cam := synced_dir ++ "/" ++ cam_name ++ ".mp4"
  match reference_path with
  | none => .error .attributeError
  | some ref =>
    let synced_session := synced_dir ++ "/session_" ++ stem ref ++ "_" ++ cam_name ++ ".mp4"
    if cam_path == ref then
      match shutil_copy fs cam_path synced_cam with
      | .error e => .error e
      | .ok (fs1, ev) => .ok ((synced_cam, none), fs1, ev)
    else
      let (off, fs1, ev) := sync_to_reference_ext env fs ref cam_path synced_cam
        (if visualize then some synced_session else none)
      .ok ((synced_cam, some off), fs1, ev)

/-- The per-session synced-output map (`synced` dict in `sync`). -/
structure SyncedMap where
  mother : Option Path
  baby : Option Path
  window : Option Path
  door : Option Path
deriving DecidableEq, Repr

/-- Step 5 of `sync.py sync` (lines 229-241): sync the window camera if
present; the trailing `if reference is None` update is kept although the
step-4 selection already chose the window path whenever it would fire. -/
def sync_window_step (env : Env) (fs : FS) (session_dir : Path)
    (window : Option Path) (reference : Option Path) (visualize : Bool) :
    Except PyErr ((Option Path × Option Path) × FS × List Event) :=
  match window with
  | none => .ok ((none, reference), fs, [])
  | some w =>
      match sync_auxiliary_camera env fs session_dir "window" w reference visualize with
      | .error e => .error e
      | .ok ((sw, _off), fs1, ev) =>
          let reference1 := if reference.isNone then some sw else reference
          .ok ((some sw, reference1), fs1, ev)

/-- Step 6 of `sync.py sync` (lines 243-251): sync the door camera if
present. -/
def sync_door_step (env : Env) (fs : FS) (session_dir : Path)
    (door : Option Path) (reference : Option Path) (visualize : Bool) :
    Except PyErr (Option Path × FS × List Event) :=
  match door with
  | none => .ok (none, fs, [])
  | some d =>
      match sync_auxiliary_camera env fs session_dir "door" d reference visualize with
      | .error e => .error e
      | .ok ((sd, _off), fs1, ev) => .ok (some sd, fs1, ev)

/-- `sync.py sync`: the per-session sync stage.  With zero discovered
cameras the source executes a bare `return`, i.e. yields Python `None`
despite the annotated tuple return type; that is the `none` result. -/
def sync (env : Env) (fs : FS) (db_dir : Path) (session_id : String) (visualize : Bool) :
    Except PyErr (Option (SyncedMap × Option Int) × FS × List Event) := do
  let session_dir := db_dir ++ "/Sessions/" ++ session_id
  let cameras := get_available_cameras fs session_dir
  if cameras.mother.isNone && cameras.baby.isNone && cameras.window.isNone && cameras.door.isNone then
    .ok (none, fs, [])
  else do
    let (cameras, fs1, ev1) ← prepare_original_videos env fs session_dir cameras
    let ((sm, sb), ms_offset_mb, fs2, ev2) ←
      sync_mother_baby env fs1 session_dir cameras.mother cameras.baby visualize
    let reference : Option Path :=
      match sb with
      | some b => some b
      | none =>
        match sm with
        | some m => some m
        | none => cameras.window
    let ((swin, reference2), fs3, ev3) ←
      sync_window_step env fs2 session_dir cameras.window reference visualize
    let (sdoor, fs4, ev4) ← sync_door_step env fs3 session_dir cameras.door reference2 visualize
    .ok (some ({ mother := sm, baby := sb, window := swin, door := sdoor }, ms_offset_mb),
      fs4, ev1 ++ ev2 ++ ev3 ++ ev4)

/-- `sync.py is_synced`: true when some line of the completed ledger
*starts with* the session id text (a raw prefix match, not an id
comparison); a missing ledger file is the empty line list. -/
def is_synced (completed : List String) (session_id : String) : Bool :=
  completed.any (fun line => pyStartswith line session_id)

/-- One roster row of the metadata sheet as `sync_all` reads it:
the `ID` column (as text), the `Auto` eligibility column, and the
`offset_mother-baby_(ms)` manual-override column (`none` models NaN). -/
structure Row where
  id : String
  auto : String
  offsetMB : Option Int
deriving DecidableEq, Repr

/-- The batch driver's mutable state: the filesystem, the lines of
`synced_sessions.txt` and `failed_sessions.txt`, and the trace of
external invocations made by non-raising sessions. -/
structure BatchState where
  fs : FS
  completed : List String
  failed : List String
  trace : List Event
deriving DecidableEq, Repr

/-- `sync.py sync_all`: iterate the roster; skip a row if the completed
ledger prefix-matches its id, its `Auto` flag is `'n'`, or a manual
mother-baby offset is on record; otherwise run `sync`.  A raised
exception — including the `TypeError` from tuple-unpacking the bare
`return` of a zero-camera session — appends the id to the failed ledger
and iteration continues; a success appends `id,offset` to the completed
ledger. -/
def sync_all (env : Env) (db_dir : Path) (visualize : Bool) :
    List Row → BatchState → BatchState
  | [], st => st
  | row :: rest, st =>
    if is_synced st.completed row.id then sync_all env db_dir visualize rest st
    else if row.auto == "n" then sync_all env db_dir visualize rest st
    else if row.offsetMB.isSome then sync_all env db_dir visualize rest st
    else
      match sync env st.fs db_dir row.id visualize with
      | .error _ =>
          sync_all env db_dir visualize rest { st with failed := st.failed ++ [row.id] }
      | .ok (none, fs1, tr) =>
          sync_all env db_dir visualize rest
            { st with fs := fs1, trace := st.trace ++ tr, failed := st.failed ++ [row.id] }
      | .ok (some (_, ms_offset_mb), fs1, tr) =>
          let line := row.id ++ "," ++ pyStr ms_offset_mb
          sync_all env db_dir visualize rest
            { st with fs := fs1, trace := st.trace ++ tr, completed := st.completed ++ [line] }

end Sync

namespace Cut

/-- `cut.py mmss_to_seconds` (nested in `cut_video`): split on `':'`;
two parts give `m*60+s`, three give `h*3600+m*60+s`, any other count
returns `0`; a non-numeral part in the two- and three-part shapes makes
`int()` raise `ValueError`. -/
def mmss_to_seconds (mmss : String) : Except PyErr Int :=
  match pySplit mmss ':' with
  | [a, b] => do
      let x ← pyInt a
      let y ← pyInt b
      Except.ok (x * 60 + y)
  | [a, b, c] => do
      let x ← pyInt a
      let y ← pyInt b
      let z ← pyInt c
      Except.ok (x * 3600 + y * 60 + z)
  | _ => .ok 0

/-- The ffmpeg trim command built by `cut_video`. -/
def cut_cmd (input_video output_video : Path) (start_time : String) (duration : Int) : String :=
  s!"ffmpeg -hide_banner -loglevel error -y -ss {start_time} -i {input_video} -t {duration} -c copy {output_video}"

/-- `cut.py cut_video`: return `False` when the input is absent,
otherwise convert the textual timestamps, run the ffmpeg trim command,
and report whether its exit status was zero.  No duration probe is
performed anywhere in this path. -/
def cut_video (env : Env) (fs : FS) (input_video output_video : Path)
    (start_time end_time : String) : Except PyErr (Bool × FS × List Event) :=
  if fs.exists input_video = false then .ok (false, fs, [])
  else
    match mmss_to_seconds start_time with
    | .error e => .error e
    | .ok start_seconds =>
      match mmss_to_seconds end_time with
      | .error e => .error e
      | .ok end_seconds =>
        let duration := end_seconds - start_seconds
        let cmd := cut_cmd input_video output_video start_time duration
        let (result, fs1, ev) := os_system env fs cmd
        .ok (result == 0, fs1, ev)

/-- Association-list lookup for the Python dicts built by `cut.py`
(keys are distinct in every call the program makes). -/
def lookupStr {α : Type} : List (String × α) → String → Option α
  | [], _ => none
  | (k, v) :: rest, key => if k == key then some v else lookupStr rest key

/-- Inner loop of `cut_all_phases` over the phases of one existing
channel: unpack the phase's `start-end` pair (`ValueError` when the
split is not a pair, `KeyError` when the phase is missing from the
timestamp dict), trim, and record the output path only on success. -/
def cutLoopPhases (env : Env) (timestamps : List (String × List String))
    (input_video output_dir : Path) (video_name : String) :
    List String → FS → Except PyErr (List (String × Path) × FS × List Event)
  | [], fs => .ok ([], fs, [])
  | phase :: rest, fs =>
    match lookupStr timestamps phase with
    | none => .error .keyError
    | some parts =>
      match parts with
      | [start_time, end_time] =>
        match cut_video env fs input_video
            (output_dir ++ "/" ++ video_name ++ "_" ++ phase ++ ".mp4") start_time end_time with
        | .error e => .error e
        | .ok (success, fs1, ev1) =>
          match cutLoopPhases env timestamps input_video output_dir video_name rest fs1 with
          | .error e => .error e
          | .ok (restMap, fs2, ev2) =>
            .ok ((if success
                then [(phase, output_dir ++ "/" ++ video_name ++ "_" ++ phase ++ ".mp4")]
                else []) ++ restMap,
              fs2, ev1 ++ ev2)
      | _ => .error .valueError

/-- Outer loop of `cut_all_phases` over the channel names: skip a
channel whose synced input is absent (no entry at all), otherwise cut
every phase. -/
def cutLoopVideos (env : Env) (timestamps : List (String × List String))
    (synced_dir output_dir : Path) (phases : List String) :
    List String → FS → Except PyErr (List (String × List (String × Path)) × FS × List Event)
  | [], fs => .ok ([], fs, [])
  | video_name :: rest, fs =>
    if fs.exists (synced_dir ++ "/" ++ video_name ++ ".mp4") = false then
      cutLoopVideos env timestamps synced_dir output_dir phases rest fs
    else
      match cutLoopPhases env timestamps (synced_dir ++ "/" ++ video_name ++ ".mp4")
          output_dir video_name phases fs with
      | .error e => .error e
      | .ok (phaseMap, fs1, ev1) =>
        match cutLoopVideos env timestamps synced_dir output_dir phases rest fs1 with
        | .error e => .error e
        | .ok (restMap, fs2, ev2) =>
          .ok ((video_name, phaseMap) :: restMap, fs2, ev1 ++ ev2)

/-- `cut.py cut_all_phases`: pair the four phase names with their
`start-end` strings (split on `'-'`) and run the two nested loops. -/
def cut_all_phases (env : Env) (fs : FS) (synced_dir : Path)
    (baseline_timestamps play_timestamps stillface_timestamps reunion_timestamps : String)
    (output_dir : Path) (video_names phases : List String) :
    Except PyErr (List (String × List (String × Path)) × FS × List Event) :=
  let convert := fun (x : String) => pySplit x '-'
  let timestamps :=
    (phases.zip [baseline_timestamps, play_timestamps, stillface_timestamps, reunion_timestamps]).map
      (fun pr => (pr.1, convert pr.2))
  cutLoopVideos env timestamps synced_dir output_dir phases video_names fs

/-- The default channel-name list of `cut_all_phases`. -/
def default_video_names : List String := ["mother", "baby", "window", "door"]

/-- The default phase list of `cut_all_phases`. -/
def default_phases : List String := ["baseline", "play", "stillface", "reunion"]

/-- The vertical-stack ffmpeg command shared verbatim by both
`stack_videos_vertical` revisions. -/
def vstack_cmd (video1 video2 : Path) (audio_source : Nat) (output_video : Path) : String :=
  s!"ffmpeg -hide_banner -loglevel error -y -i {video1} -i {video2} -filter_complex \x27[0:v][1:v]vstack=inputs=2[v]\x27 -map \x27[v]\x27 -map {audio_source}:a {output_video}"

/-- `cut.py stack_videos_vertical`: fail when an input is missing,
otherwise always run the stack command (no existing-output check in
this revision). -/
def stack_videos_vertical (env : Env) (fs : FS) (video1 video2 output_video : Path)
    (audio_source : Nat) : Bool × FS × List Event :=
  if !(fs.exists video1) || !(fs.exists video2) then (false, fs, [])
  else
    let cmd := vstack_cmd video1 video2 audio_source output_video
    let (result, fs1, ev) := os_system env fs cmd
    (result == 0, fs1, ev)

/-- The `video_paths` dict handed to the 2x2 compositors: one optional
per-phase cut path per channel role. -/
structure VideoPaths where
  mother : Option Path
  window : Option Path
  baby : Option Path
  door : Option Path
deriving DecidableEq, Repr

/-- `video_paths.get(name)`. -/
def VideoPaths.get (vp : VideoPaths) : String → Option Path
  | "mother" => vp.mother
  | "window" => vp.window
  | "baby" => vp.baby
  | "door" => vp.door
  | _ => none

/-- `video_paths.get(name) and video_paths[name].exists()`. -/
def vpExists (fs : FS) (vp : VideoPaths) (cam_name : String) : Bool :=
  match vp.get cam_name with
  | some p => fs.exists p
  | none => false

/-- The fixed 2x2 grid input order
(`[0]=mother, [1]=window, [2]=baby, [3]=door`). -/
def grid_order : List String := ["mother", "window", "baby", "door"]

/-- The audio-priority order both revisions iterate on fallback. -/
def audio_priority : List String := ["baby", "mother", "window", "door"]

/-- A channel's index in the grid input order. -/
def grid_index (cam_name : String) : Nat :=
  match cam_name with
  | "window" => 1
  | "baby" => 2
  | "door" => 3
  | _ => 0

/-- The reference-selection loop of both 2x2 revisions: the first
existing video in the given order. -/
def first_existing (fs : FS) (vp : VideoPaths) : List String → Option Path
  | [] => none
  | cam_name :: rest =>
    if vpExists fs vp cam_name then vp.get cam_name else first_existing fs vp rest

/-- The synthetic black filler input both revisions append for an
absent channel. -/
def filler_input : String := "-f lavfi -i color=black:size=1920x1080:rate=60:duration=300"

/-- The per-slot `-i` arguments of the 2x2 grid: a real input for an
existing channel, the black filler otherwise — always four slots. -/
def grid_inputs (fs : FS) (vp : VideoPaths) : List String :=
  grid_order.map (fun cam_name =>
    match vp.get cam_name with
    | some p => if fs.exists p then s!"-i {p}" else filler_input
    | none => filler_input)

/-- The always-constant input labels appended per slot. -/
def input_labels : List String := ["[0:v]", "[1:v]", "[2:v]", "[3:v]"]

/-- The in-loop audio selection of both revisions: the grid index of
the requested audio source when that channel exists. -/
def audio_map_direct (fs : FS) (vp : VideoPaths) (audio_source : String) :
    List String → Nat → Option Nat
  | [], _ => none
  | cam_name :: rest, i =>
    if vpExists fs vp cam_name && (cam_name == audio_source) then some i
    else audio_map_direct fs vp audio_source rest (i + 1)

/-- `cut.py`'s audio fallback (lines 193-197): iterate the priority
list and take *that enumeration's index* as the ffmpeg input index —
the priority position, not the grid position. -/
def cut_audio_fallback (fs : FS) (vp : VideoPaths) : List String → Nat → Option Nat
  | [], _ => none
  | cam_name :: rest, i =>
    if vpExists fs vp cam_name then some i else cut_audio_fallback fs vp rest (i + 1)

/-- The audio input index `cut.py stack_videos_2x2` ends up mapping. -/
def audio_map_idx (fs : FS) (vp : VideoPaths) (audio_source : String) : Option Nat :=
  match audio_map_direct fs vp audio_source grid_order 0 with
  | some i => some i
  | none => cut_audio_fallback fs vp audio_priority 0

/-- The filter graph both revisions assemble from the slot labels. -/
def grid_filter : String :=
  String.join (input_labels.take 2) ++ "hstack=inputs=2[top];" ++
    String.join (input_labels.drop 2) ++ "hstack=inputs=2[bottom];" ++
    "[top][bottom]vstack=inputs=2[v]"

/-- The 2x2 ffmpeg command with `cut.py`'s plain `-map idx:a` audio
flag. -/
def grid_cmd (fs : FS) (vp : VideoPaths) (audio : Option Nat) (output_video : Path) : String :=
  let base := "ffmpeg -hide_banner -loglevel error -y " ++
    String.intercalate " " (grid_inputs fs vp) ++
    " -filter_complex \x27" ++ grid_filter ++ "\x27 -map \x27[v]\x27 "
  let withAudio := match audio with
    | some i => base ++ s!"-map {i}:a "
    | none => base
  withAudio ++ s!"-shortest {output_video}"

/-- `cut.py stack_videos_2x2`: skip (returning `False`) only when no
real channel exists; otherwise always run the grid command (no
existing-output check in this revision), with the audio index chosen by
the direct scan or `cut.py`'s priority-position fallback. -/
def stack_videos_2x2 (env : Env) (fs : FS) (vp : VideoPaths) (output_video : Path)
    (audio_source : String) : Bool × FS × List Event :=
  match first_existing fs vp audio_priority with
  | none => (false, fs, [])
  | some _ref =>
    let audio := audio_map_idx fs vp audio_source
    let cmd := grid_cmd fs vp audio output_video
    let (result, fs1, ev) := os_system env fs cmd
    (result == 0, fs1, ev)

end Cut

namespace Viz

/-- `visualize.py get_video_duration`: the ffprobe duration probe
(defined in the source but never called by the cut pipeline). -/
def get_video_duration (env : Env) (p : Path) : Int × List Event :=
  (env.durationSec p, [.probeDuration p])

/-- `visualize.py stack_videos_vertical`: identical to the `cut.py`
revision except that an already-existing output short-circuits to
`True` before any invocation. -/
def stack_videos_vertical (env : Env) (fs : FS) (video1 video2 output_video : Path)
    (audio_source : Nat) : Bool × FS × List Event :=
  if !(fs.exists video1) || !(fs.exists video2) then (false, fs, [])
  else if fs.exists output_video then (true, fs, [])
  else
    let cmd := Cut.vstack_cmd video1 video2 audio_source output_video
    let (result, fs1, ev) := os_system env fs cmd
    (result == 0, fs1, ev)

/-- `visualize.py`'s audio fallback (lines 117-123): iterate the
priority list and map through `video_exists[name]`, i.e. the *grid*
index of the first existing channel. -/
def viz_audio_fallback (fs : FS) (vp : Cut.VideoPaths) : List String → Option Nat
  | [] => none
  | cam_name :: rest =>
    if Cut.vpExists fs vp cam_name then some (Cut.grid_index cam_name)
    else viz_audio_fallback fs vp rest

/-- The audio input index `visualize.py stack_videos_2x2` maps. -/
def audio_map_idx (fs : FS) (vp : Cut.VideoPaths) (audio_source : String) : Option Nat :=
  match Cut.audio_map_direct fs vp audio_source Cut.grid_order 0 with
  | some i => some i
  | none => viz_audio_fallback fs vp Cut.audio_priority

/-- The 2x2 ffmpeg command with `visualize.py`'s tolerant `-map idx:a?`
audio flag. -/
def grid_cmd (fs : FS) (vp : Cut.VideoPaths) (audio : Option Nat) (output_video : Path) : String :=
  let base := "ffmpeg -hide_banner -loglevel error -y " ++
    String.intercalate " " (Cut.grid_inputs fs vp) ++
    " -filter_complex \x27" ++ Cut.grid_filter ++ "\x27 -map \x27[v]\x27 "
  let withAudio := match audio with
    | some i => base ++ s!"-map {i}:a? "
    | none => base
  withAudio ++ s!"-shortest {output_video}"

/-- `visualize.py stack_videos_2x2`: as in `cut.py` but with the fixed
grid-index audio fallback, the `:a?` map flag, and an existing-output
short-circuit (checked after the command is built, before it runs). -/
def stack_videos_2x2 (env : Env) (fs : FS) (vp : Cut.VideoPaths) (output_video : Path)
    (audio_source : String) : Bool × FS × List Event :=
  match Cut.first_existing fs vp Cut.audio_priority with
  | none => (false, fs, [])
  | some _ref =>
    let audio := audio_map_idx fs vp audio_source
    let cmd := grid_cmd fs vp audio output_video
    if fs.exists output_video then (true, fs, [])
    else
      let (result, fs1, ev) := os_system env fs cmd
      (result == 0, fs1, ev)

end Viz

/-! ## Concrete instances used by the theorems below -/

/-- A baseline external world: every command exits 0 with no file
effects, every probed rate is exactly 60 fps, probed durations are
180 s, and alignment reports offset 123 ms. -/
def envBase : Env :=
  { systemCode := fun _ => 0
    systemFS := fun _ fs => fs
    fpsMillis := fun _ => 60000
    durationSec := fun _ => 180
    syncOffset := fun _ _ => 123 }

/-- The repository's database root. -/
def dbp : Path := "data/ELTE-PPK_StillFace"

/-- An empty batch state over a given filesystem. -/
def st0 (fs : FS) : Sync.BatchState := { fs := fs, completed := [], failed := [], trace := [] }

/-- Shortcut instances so that decidable equality on segmenter results
synthesizes directly. -/
instance : DecidableEq (List (String × List (String × Path))) := inferInstance

instance : DecidableEq (FS × List Event) := inferInstance

instance : DecidableEq (List (String × List (String × Path)) × FS × List Event) := inferInstance

/-- C1: an eligible roster row for session 9001 whose directory holds
no camera file at all. -/
def rowC1 : Sync.Row := { id := "9001", auto := "y", offsetMB := none }

/-- C2: session 5001 with mother and baby originals whose synced
outputs already exist on disk. -/
def fsC2 : FS :=
  [(dbp ++ "/Sessions/5001/original/mother.mp4", "m"),
   (dbp ++ "/Sessions/5001/original/baby.mp4", "b"),
   (dbp ++ "/Sessions/5001/synced/mother.mp4", "aligned:" ++ dbp ++ "/Sessions/5001/original/mother.mp4"),
   (dbp ++ "/Sessions/5001/synced/baby.mp4", "aligned:" ++ dbp ++ "/Sessions/5001/original/baby.mp4")]

/-- C3: a session with only the synced mother channel, 180 s long per
the (never-consulted) duration oracle. -/
def fsC3 : FS := [("S/1001/synced/mother.mp4", "sm")]

/-- C4: session 3001 whose only camera is the door channel. -/
def fsC4 : FS := [(dbp ++ "/Sessions/3001/original/door.MTS", "doorMTS")]

/-- C4: the eligible roster row for the door-only session. -/
def rowC4 : Sync.Row := { id := "3001", auto := "y", offsetMB := none }

/-- C5: a world where ffmpeg reports failure (exit 1) on every command
yet still produces session 4001's converted window file, and the window
capture is probed at 50 fps (so the transcode branch is taken). -/
def envC5 : Env :=
  { systemCode := fun _ => 1
    systemFS := fun _ fs => fs.write (dbp ++ "/Sessions/4001/original/window.mp4") "converted"
    fpsMillis := fun _ => 50000
    durationSec := fun _ => 0
    syncOffset := fun _ _ => 0 }

/-- C5: session 4001's raw window capture path. -/
def winMTS : Path := dbp ++ "/Sessions/4001/original/window.MTS"

/-- C5: session 4001's converted window output path. -/
def winMP4 : Path := dbp ++ "/Sessions/4001/original/window.mp4"

/-- C5: session 4001 holds only the raw window capture. -/
def fsC5 : FS := [(winMTS, "winMTS")]

/-- C5: the eligible roster row for the window-only session. -/
def rowC5 : Sync.Row := { id := "4001", auto := "y", offsetMB := none }

/-- C6: an eligible row for session 100 with no manual offset. -/
def rowC6 : Sync.Row := { id := "100", auto := "y", offsetMB := none }

/-- C6: a batch state whose completed ledger records only session 1001
— session 100 is *not* recorded completed. -/
def stC6 : Sync.BatchState := { fs := [], completed := ["1001,5"], failed := [], trace := [] }

/-- C7: only session 2003 has cameras (mother and baby); sessions 2001
and 2002 have none. -/
def fsC7 : FS :=
  [(dbp ++ "/Sessions/2003/original/mother.mp4", "m"),
   (dbp ++ "/Sessions/2003/original/baby.mp4", "b")]

/-- C7: the roster — failing 2001 and 2002, then succeeding 2003. -/
def rowsC7 : List Sync.Row :=
  [{ id := "2001", auto := "y", offsetMB := none },
   { id := "2002", auto := "y", offsetMB := none },
   { id := "2003", auto := "y", offsetMB := none }]

/-- C8: per-phase cuts with mother and window present, baby and door
absent. -/
def vpC8 : Cut.VideoPaths :=
  { mother := some "m.mp4", window := some "w.mp4", baby := none, door := none }

/-- C8: both present cut files exist on disk. -/
def fsC8 : FS := [("m.mp4", "m"), ("w.mp4", "w")]

/-- C9: both stack inputs exist and the output file already exists. -/
def fsC9 : FS := [("v1.mp4", "1"), ("v2.mp4", "2"), ("out.mp4", "old")]

/-- C9: a world where every command exits 1. -/
def envC9 : Env := { envBase with systemCode := fun _ => 1 }

/-- C9: a baby-only per-phase cut map. -/
def vpC9 : Cut.VideoPaths :=
  { mother := none, window := none, baby := some "v2.mp4", door := none }

/-! ## Claims -/

/-- C1: for a session whose discovered channel set is empty, `sync`
executes the bare `return` (Python `None`) — contradicting its own
annotated tuple return type — and the batch driver's tuple unpacking
then raises `TypeError`, so the session id *is* appended to the failed
ledger, against the claim (and the evident intent) that zero channels
is a no-op success never recorded as failed. -/
theorem c1_zero_channels_recorded_failed :
    Sync.sync envBase [] dbp "9001" false = .ok (none, [], []) ∧
    (Sync.sync_all envBase dbp false [rowC1] (st0 [])).failed = ["9001"] ∧
    (Sync.sync_all envBase dbp false [rowC1] (st0 [])).completed = [] := by
  refine ⟨by decide, by decide, by decide⟩

/-- C2 (counterexample): session 5001's synced mother/baby outputs
already exist on disk, yet re-running the sync stage still performs an
external pairwise alignment — the trace is not empty, refuting the
claimed zero external alignment/copy operations. -/
theorem c2_counterexample :
    FS.exists fsC2 (dbp ++ "/Sessions/5001/synced/mother.mp4") = true ∧
    FS.exists fsC2 (dbp ++ "/Sessions/5001/synced/baby.mp4") = true ∧
    (Sync.sync envBase fsC2 dbp "5001" false).map (fun r => r.2.2) =
      .ok [Event.alignPair
        (dbp ++ "/Sessions/5001/original/mother.mp4")
        (dbp ++ "/Sessions/5001/original/baby.mp4")
        (dbp ++ "/Sessions/5001/synced/mother.mp4")
        (dbp ++ "/Sessions/5001/synced/baby.mp4") none] := by
  refine ⟨by decide, by decide, by decide⟩

/-- C2 (amended): only the normalized-output write is idempotent —
`convert_to_60fps` short-circuits on an existing output with no
external invocation and an unchanged filesystem — while
`sync_mother_baby` unconditionally re-invokes the external pairwise
alignment whenever both inputs are present, regardless of the
filesystem state (so in particular when the synced outputs already
exist). -/
theorem c2_idempotence_amended :
    (∀ (env : Env) (fs : FS) (i o : Path),
      FS.exists fs o = true → Sync.convert_to_60fps env fs i o = (o, fs, [])) ∧
    (∀ (env : Env) (fs : FS) (sd m b : Path) (viz : Bool),
      (Sync.sync_mother_baby env fs sd (some m) (some b) viz).map (fun r => r.2.2.2) =
        .ok [Event.alignPair m b (sd ++ "/synced" ++ "/mother.mp4") (sd ++ "/synced" ++ "/baby.mp4")
          (if viz then some (sd ++ "/synced" ++ "/session_mb.mp4") else none)]) := by
  constructor
  · intro env fs i o h
    simp [Sync.convert_to_60fps, h]
  · intro env fs sd m b viz
    rfl

/-- C2 (witness): the amended statement applied at a concrete world:
an existing output short-circuits the normalizer, and session 5001's
re-run still aligns. -/
theorem c2_witness :
    Sync.convert_to_60fps envBase [("o.mp4", "x")] "i.MTS" "o.mp4" = ("o.mp4", [("o.mp4", "x")], []) ∧
    (Sync.sync_mother_baby envBase fsC2 (dbp ++ "/Sessions/5001")
        (some (dbp ++ "/Sessions/5001/original/mother.mp4"))
        (some (dbp ++ "/Sessions/5001/original/baby.mp4")) false).map (fun r => r.2.2.2) =
      .ok [Event.alignPair
        (dbp ++ "/Sessions/5001/original/mother.mp4")
        (dbp ++ "/Sessions/5001/original/baby.mp4")
        (dbp ++ "/Sessions/5001" ++ "/synced" ++ "/mother.mp4")
        (dbp ++ "/Sessions/5001" ++ "/synced" ++ "/baby.mp4") none] :=
  ⟨c2_idempotence_amended.1 envBase [("o.mp4", "x")] "i.MTS" "o.mp4" (by decide),
   c2_idempotence_amended.2 envBase fsC2 (dbp ++ "/Sessions/5001")
     (dbp ++ "/Sessions/5001/original/mother.mp4")
     (dbp ++ "/Sessions/5001/original/baby.mp4") false⟩

/-- C3 (counterexample): session 1001 has the synced mother channel,
the duration oracle answers 180 s, and the reunion phase starts at
540 s; against the claim, no duration probe is ever issued (every trace
event is an `os.system` trim) and the reunion entry is *present* in the
result map because the external trim command exited 0. -/
theorem c3_counterexample :
    envBase.durationSec "S/1001/synced/mother.mp4" = 180 ∧
    Cut.mmss_to_seconds "09:00" = .ok 540 ∧
    (Cut.cut_all_phases envBase fsC3 "S/1001/synced" "00:00-02:00" "02:00-07:00"
        "07:00-09:00" "09:00-12:00" "S/1001/processed"
        Cut.default_video_names Cut.default_phases).map
      (fun r => ((Cut.lookupStr r.1 "mother").bind (fun mp => Cut.lookupStr mp "reunion"),
        r.2.2.all Event.isSystem, r.2.2.any Event.isDurationProbe, r.2.2.length)) =
      .ok (some "S/1001/processed/mother_reunion.mp4", true, false, 4) := by
  refine ⟨rfl, by decide, by decide⟩

/-- Helper: a trace of pure `os.system` events contains no duration
probe. -/
theorem all_system_no_duration_probe (tr : List Event)
    (h : tr.all Event.isSystem = true) : tr.all (fun e => !e.isDurationProbe) = true := by
  rw [List.all_eq_true] at h ⊢
  intro e he
  have hs := h e he
  cases e <;> simp_all [Event.isSystem, Event.isDurationProbe]

/-- Helper: every event emitted by a non-raising `cut_video` call is an
`os.system` invocation. -/
theorem cut_video_all_system (env : Env) (fs : FS) (iv ov : Path) (st en : String)
    (b : Bool) (fs' : FS) (tr : List Event)
    (h : Cut.cut_video env fs iv ov st en = .ok (b, fs', tr)) :
    tr.all Event.isSystem = true := by
  unfold Cut.cut_video at h
  split at h
  · obtain ⟨-, -, rfl⟩ := by simpa using h
    rfl
  · split at h
    · exact Except.noConfusion h
    · split at h
      · exact Except.noConfusion h
      · obtain ⟨-, -, rfl⟩ := by simpa [os_system] using h
        rfl

/-- Helper: the inner phase loop of the segmenter emits only
`os.system` events. -/
theorem cutLoopPhases_all_system (env : Env) (ts : List (String × List String))
    (iv od : Path) (vn : String) :
    ∀ (phs : List String) (fs : FS) (res : List (String × Path)) (fs' : FS) (tr : List Event),
      Cut.cutLoopPhases env ts iv od vn phs fs = .ok (res, fs', tr) →
      tr.all Event.isSystem = true := by
  intro phs
  induction phs with
  | nil =>
    intro fs res fs' tr h
    obtain ⟨-, -, rfl⟩ := by simpa [Cut.cutLoopPhases] using h
    rfl
  | cons phase rest ih =>
    intro fs res fs' tr h
    unfold Cut.cutLoopPhases at h
    split at h
    · exact Except.noConfusion h
    · split at h <;> try exact Except.noConfusion h
      split at h
      · exact Except.noConfusion h
      · rename_i success fs1 ev1 heq
        split at h
        · exact Except.noConfusion h
        · rename_i restMap fs2 ev2 heq2
          obtain ⟨-, -, rfl⟩ := by simpa using h
          have h1 := cut_video_all_system env fs iv _ _ _ success fs1 ev1 heq
          have h2 := ih fs1 restMap fs2 ev2 heq2
          simp [List.all_append, h1, h2]

/-- Helper: the outer channel loop of the segmenter emits only
`os.system` events. -/
theorem cutLoopVideos_all_system (env : Env) (ts : List (String × List String))
    (sd od : Path) (phases : List String) :
    ∀ (names : List String) (fs : FS) (res : List (String × List (String × Path)))
      (fs' : FS) (tr : List Event),
      Cut.cutLoopVideos env ts sd od phases names fs = .ok (res, fs', tr) →
      tr.all Event.isSystem = true := by
  intro names
  induction names with
  | nil =>
    intro fs res fs' tr h
    obtain ⟨-, -, rfl⟩ := by simpa [Cut.cutLoopVideos] using h
    rfl
  | cons vn rest ih =>
    intro fs res fs' tr h
    unfold Cut.cutLoopVideos at h
    split at h
    · exact ih fs res fs' tr h
    · split at h
      · exact Except.noConfusion h
      · rename_i phaseMap fs1 ev1 heq
        split at h
        · exact Except.noConfusion h
        · rename_i restMap fs2 ev2 heq2
          obtain ⟨-, -, rfl⟩ := by simpa using h
          have h1 := cutLoopPhases_all_system env ts _ od vn phases fs phaseMap fs1 ev1 heq
          have h2 := ih fs1 restMap fs2 ev2 heq2
          simp [List.all_append, h1, h2]

/-- C3 (amended): the segmenter performs no duration probe at all —
every event of a non-raising `cut_all_phases` run is an `os.system`
trim invocation (in particular no `probeDuration` is issued) — and for
an existing channel a phase cut simply runs the external trim command,
its entry recorded iff that command exits 0: a start offset beyond the
source's duration is never detected or specially skipped. -/
theorem c3_no_probe_amended :
    (∀ (env : Env) (fs : FS) (sd b p s r od : Path) (names phases : List String)
      (res : List (String × List (String × Path))) (fs' : FS) (tr : List Event),
      Cut.cut_all_phases env fs sd b p s r od names phases = .ok (res, fs', tr) →
      tr.all Event.isSystem = true ∧ tr.all (fun e => !e.isDurationProbe) = true) ∧
    (∀ (env : Env) (fs : FS) (iv ov : Path) (st en : String) (x y : Int),
      FS.exists fs iv = true →
      Cut.mmss_to_seconds st = .ok x → Cut.mmss_to_seconds en = .ok y →
      Cut.cut_video env fs iv ov st en =
        .ok ((env.systemCode (Cut.cut_cmd iv ov st (y - x)) == 0),
          env.systemFS (Cut.cut_cmd iv ov st (y - x)) fs,
          [Event.system (Cut.cut_cmd iv ov st (y - x))])) := by
  constructor
  · intro env fs sd b p s r od names phases res fs' tr h
    have hall := cutLoopVideos_all_system env _ sd od phases names fs res fs' tr h
    exact ⟨hall, all_system_no_duration_probe tr hall⟩
  · intro env fs iv ov st en x y hex hst hen
    simp [Cut.cut_video, hex, hst, hen, os_system, Except.bind]

/-- C3 (witness): the amended statement applied at a concrete run (one
channel, one phase) and at a concrete out-of-range cut. -/
theorem c3_witness :
    ([Event.system (Cut.cut_cmd "s/mother.mp4" "o/mother_baseline.mp4" "00:00" 120)].all
        Event.isSystem = true ∧
      [Event.system (Cut.cut_cmd "s/mother.mp4" "o/mother_baseline.mp4" "00:00" 120)].all
        (fun e => !e.isDurationProbe) = true) ∧
    Cut.cut_video envBase [("s/mother.mp4", "x")] "s/mother.mp4" "o/mother_reunion.mp4"
        "09:00" "12:00" =
      .ok ((envBase.systemCode (Cut.cut_cmd "s/mother.mp4" "o/mother_reunion.mp4" "09:00" (720 - 540)) == 0),
        envBase.systemFS (Cut.cut_cmd "s/mother.mp4" "o/mother_reunion.mp4" "09:00" (720 - 540))
          [("s/mother.mp4", "x")],
        [Event.system (Cut.cut_cmd "s/mother.mp4" "o/mother_reunion.mp4" "09:00" (720 - 540))]) :=
  ⟨c3_no_probe_amended.1 envBase [("s/mother.mp4", "x")] "s" "00:00-02:00" "x" "y" "z" "o"
      ["mother"] ["baseline"] [("mother", [("baseline", "o/mother_baseline.mp4")])]
      [("s/mother.mp4", "x")]
      [Event.system (Cut.cut_cmd "s/mother.mp4" "o/mother_baseline.mp4" "00:00" 120)]
      (by decide),
   c3_no_probe_amended.2 envBase [("s/mother.mp4", "x")] "s/mother.mp4" "o/mother_reunion.mp4"
      "09:00" "12:00" 540 720 (by decide) (by decide) (by decide)⟩

/-- C4: a session whose only channel is the door camera reaches
`sync_auxiliary_camera` with `reference = None`; the source computes
`session_{reference_path.stem}_{cam_name}.mp4` before its `None` check,
so instead of the claimed exception-free copy-through the session dies
with `AttributeError` and the batch driver records it failed. -/
theorem c4_door_only_attribute_error :
    Sync.sync envBase fsC4 dbp "3001" false = .error .attributeError ∧
    (Sync.sync_all envBase dbp false [rowC4] (st0 fsC4)).failed = ["3001"] ∧
    (Sync.sync_all envBase dbp false [rowC4] (st0 fsC4)).completed = [] := by
  refine ⟨by decide, by decide, by decide⟩

/-- C5 (counterexample): the external transcode primitive reports
failure (exit 1) while normalizing session 4001's window capture
(probed at 50 fps, so the resample branch runs), yet no error of any
kind is raised: the session completes, lands on the *completed* ledger,
and the failed ledger stays empty — there is no TranscodeError in the
code. -/
theorem c5_counterexample :
    envC5.systemCode (s!"ffmpeg -hide_banner -loglevel error -y -i {winMTS} -r 60 {winMP4}") = 1 ∧
    (Sync.sync_all envC5 dbp false [rowC5] (st0 fsC5)).completed = ["4001,None"] ∧
    (Sync.sync_all envC5 dbp false [rowC5] (st0 fsC5)).failed = [] ∧
    (Sync.sync_all envC5 dbp false [rowC5] (st0 fsC5)).trace.any Event.isSystem = true := by
  refine ⟨rfl, by decide, by decide, by decide⟩

/-- C5 (amended): when the output does not yet exist,
`convert_to_60fps` runs the transcode command and returns the output
path with that single invocation recorded, *independently of the exit
code the primitive reports* — the code is read and discarded, no
`TranscodeError` is raised, and the session is not failed by the
transcode failure itself. -/
theorem c5_convert_ignores_exit :
    ∀ (env : Env) (fs : FS) (i o : Path),
      FS.exists fs o = false →
      Sync.convert_to_60fps env fs i o =
        (o, env.systemFS (s!"ffmpeg -hide_banner -loglevel error -y -i {i} -r 60 {o}") fs,
          [Event.system (s!"ffmpeg -hide_banner -loglevel error -y -i {i} -r 60 {o}")]) := by
  intro env fs i o h
  simp [Sync.convert_to_60fps, h, os_system]

/-- C5 (witness): the amended statement applied at the failing world
`envC5`, whose every command exits 1. -/
theorem c5_witness :
    Sync.convert_to_60fps envC5 fsC5 winMTS winMP4 =
      (winMP4,
        envC5.systemFS (s!"ffmpeg -hide_banner -loglevel error -y -i {winMTS} -r 60 {winMP4}") fsC5,
        [Event.system (s!"ffmpeg -hide_banner -loglevel error -y -i {winMTS} -r 60 {winMP4}")]) :=
  c5_convert_ignores_exit envC5 fsC5 winMTS winMP4 (by decide)

/-- C6 (counterexample): session 100 is eligible (`Auto = "y"`), has no
manual offset, and is *not* recorded completed — no ledger line is
`100,...` — yet the driver skips it entirely (the batch state is
unchanged) because `is_synced` prefix-matches the line `1001,5`. -/
theorem c6_counterexample :
    rowC6.id = "100" ∧ rowC6.auto = "y" ∧ rowC6.offsetMB = none ∧
    stC6.completed.any (fun line => pyStartswith line ("100" ++ ",")) = false ∧
    Sync.sync_all envBase dbp false [rowC6] stC6 = stC6 := by
  refine ⟨rfl, rfl, rfl, by decide, by decide⟩

/-- C6 (amended): the batch driver skips a roster row — leaving the
batch state exactly unchanged — if and only if some completed-ledger
line *starts with* the row's id text (a raw prefix match, so a longer
session id sharing a prefix also causes the skip), or the eligibility
flag equals `"n"`, or a manual offset override is on record; otherwise
it runs the sync stage for the row, appending an outcome line. -/
theorem c6_driver_guard_amended :
    ∀ (env : Env) (db : Path) (viz : Bool) (row : Sync.Row) (st : Sync.BatchState),
      (Sync.sync_all env db viz [row] st = st) ↔
        (Sync.is_synced st.completed row.id || row.auto == "n" || row.offsetMB.isSome) = true := by
  intro env db viz row st
  constructor
  · intro h
    by_contra hg
    simp only [Bool.or_eq_true, not_or, Bool.not_eq_true] at hg
    obtain ⟨⟨h1, h2⟩, h3⟩ := hg
    rw [Sync.sync_all, h1, h2, h3] at h
    simp only [Bool.false_eq_true, if_false] at h
    rcases hs : Sync.sync env st.fs db row.id viz with e | ⟨o, fs1, tr⟩
    · rw [hs] at h
      have := congrArg (fun s => s.failed.length) h
      simp [Sync.sync_all] at this
    · rcases o with _ | ⟨sm, off⟩
      · rw [hs] at h
        have := congrArg (fun s => s.failed.length) h
        simp [Sync.sync_all] at this
      · rw [hs] at h
        have := congrArg (fun s => s.completed.length) h
        simp [Sync.sync_all] at this
  · intro h
    rw [Bool.or_eq_true, Bool.or_eq_true] at h
    by_cases h1 : Sync.is_synced st.completed row.id = true
    · rw [Sync.sync_all, h1]
      simp [Sync.sync_all]
    · rw [Bool.not_eq_true] at h1
      by_cases h2 : (row.auto == "n") = true
      · rw [Sync.sync_all, h1, h2]
        simp [Sync.sync_all]
      · rw [Bool.not_eq_true] at h2
        have h3 : row.offsetMB.isSome = true := by
          rcases h with (h | h) | h
          · exact absurd h (by simp [h1])
          · exact absurd h (by simp [h2])
          · exact h
        rw [Sync.sync_all, h1, h2, h3]
        simp [Sync.sync_all]

/-- C6 (witness): the amended guard applied at a row whose eligibility
flag is `"n"`: the driver leaves the batch state unchanged. -/
theorem c6_witness :
    Sync.sync_all envBase dbp false [{ id := "7777", auto := "n", offsetMB := none }] (st0 []) =
      st0 [] :=
  (c6_driver_guard_amended envBase dbp false { id := "7777", auto := "n", offsetMB := none }
    (st0 [])).mpr (by decide)

/-- C7: a processed roster row appends exactly one line to exactly one
ledger — its id to the failed ledger when `sync` raises (or returns the
bare-`return` `None` that the driver's unpacking turns into a
`TypeError`), or `id,offset` to the completed ledger on success — and
the batch continues with no retry: the scenario with failing sessions
2001 and 2002 followed by succeeding 2003 yields failed ledger
`["2001", "2002"]` and completed ledger `["2003,123"]`. -/
theorem c7_ledger_appends :
    (∀ (env : Env) (db : Path) (viz : Bool) (row : Sync.Row) (st : Sync.BatchState),
      Sync.is_synced st.completed row.id = false →
      (row.auto == "n") = false →
      row.offsetMB = none →
      (match Sync.sync env st.fs db row.id viz with
       | .error _ =>
          (Sync.sync_all env db viz [row] st).failed = st.failed ++ [row.id] ∧
          (Sync.sync_all env db viz [row] st).completed = st.completed
       | .ok (none, _, _) =>
          (Sync.sync_all env db viz [row] st).failed = st.failed ++ [row.id] ∧
          (Sync.sync_all env db viz [row] st).completed = st.completed
       | .ok (some (_, off), _, _) =>
          (Sync.sync_all env db viz [row] st).completed =
            st.completed ++ [row.id ++ "," ++ pyStr off] ∧
          (Sync.sync_all env db viz [row] st).failed = st.failed)) ∧
    ((Sync.sync_all envBase dbp false rowsC7 (st0 fsC7)).failed = ["2001", "2002"] ∧
     (Sync.sync_all envBase dbp false rowsC7 (st0 fsC7)).completed = ["2003,123"]) := by
  constructor
  · intro env db viz row st h1 h2 h3
    have h3' : row.offsetMB.isSome = false := by rw [h3]; rfl
    rcases hs : Sync.sync env st.fs db row.id viz with e | ⟨o, fs1, tr⟩
    · simp [Sync.sync_all, h1, h2, h3', hs]
    · rcases o with _ | ⟨sm, off⟩
      · simp [Sync.sync_all, h1, h2, h3', hs]
      · simp [Sync.sync_all, h1, h2, h3', hs]
  · exact ⟨by decide, by decide⟩

/-- C7 (witness): the per-row characterization applied at the
zero-camera session 2001 over an empty batch state. -/
theorem c7_witness :
    (Sync.sync_all envBase dbp false [{ id := "2001", auto := "y", offsetMB := none }] (st0 [])).failed =
      [] ++ ["2001"] ∧
    (Sync.sync_all envBase dbp false [{ id := "2001", auto := "y", offsetMB := none }] (st0 [])).completed =
      [] := by
  have h := c7_ledger_appends.1 envBase dbp false { id := "2001", auto := "y", offsetMB := none }
    (st0 []) (by decide) (by decide) rfl
  have hs : Sync.sync envBase (st0 ([] : FS)).fs dbp "2001" false = .ok (none, [], []) := by decide
  rw [hs] at h
  exact h

/-- C8: with mother and window cuts present, baby and door absent, and
`audio_source="baby"` (the only value the caller passes), `cut.py`'s
fallback stores the *priority-list position* (1, for mother) as the
ffmpeg input index, so the composite maps `-map 1:a` — the window slot
— although the highest-priority real channel is mother at grid input 0;
the duplicated `visualize.py` revision maps input 0 as the claim
states. -/
theorem c8_cut_audio_fallback_bug :
    Cut.audio_map_idx fsC8 vpC8 "baby" = some 1 ∧
    Viz.audio_map_idx fsC8 vpC8 "baby" = some 0 ∧
    Cut.first_existing fsC8 vpC8 Cut.audio_priority = some "m.mp4" ∧
    vpC8.mother = some "m.mp4" ∧
    Cut.grid_index "mother" = 0 ∧
    Cut.grid_index "window" = 1 ∧
    (Cut.stack_videos_2x2 envBase fsC8 vpC8 "out.mp4" "baby").2.2 =
      [Event.system (Cut.grid_cmd fsC8 vpC8 (some 1) "out.mp4")] := by
  refine ⟨by decide, by decide, by decide, by decide, by decide, by decide, by decide⟩

/-- C9 (counterexample): the duplicated compositor revisions are not
equivalent.  With both inputs present, the output already on disk and
the external command exiting 1, `cut.py`'s `stack_videos_vertical`
re-invokes ffmpeg and returns `False` while `visualize.py`'s returns
`True` with zero invocations; and on a fresh output the two
`stack_videos_2x2` revisions issue different commands (`-map 2:a `
versus `-map 2:a? `). -/
theorem c9_counterexample :
    ((Cut.stack_videos_vertical envC9 fsC9 "v1.mp4" "v2.mp4" "out.mp4" 1).1 = false ∧
     (Viz.stack_videos_vertical envC9 fsC9 "v1.mp4" "v2.mp4" "out.mp4" 1).1 = true ∧
     (Viz.stack_videos_vertical envC9 fsC9 "v1.mp4" "v2.mp4" "out.mp4" 1).2.2 = [] ∧
     (Cut.stack_videos_vertical envC9 fsC9 "v1.mp4" "v2.mp4" "out.mp4" 1).2.2 =
       [Event.system (Cut.vstack_cmd "v1.mp4" "v2.mp4" 1 "out.mp4")]) ∧
    (Cut.stack_videos_2x2 envBase fsC9 vpC9 "fresh.mp4" "baby").2.2 ≠
      (Viz.stack_videos_2x2 envBase fsC9 vpC9 "fresh.mp4" "baby").2.2 := by
  refine ⟨⟨by decide, by decide, by decide, by decide⟩, by decide⟩

/-- C9 (amended): on every input and filesystem state in which the
output file does not already exist, the two `stack_videos_vertical`
revisions return the same boolean result, the same filesystem, and the
same external invocations; the full equivalence fails on existing
outputs and for the 2x2 revisions (see the counterexample). -/
theorem c9_vertical_fresh_equivalence :
    ∀ (env : Env) (fs : FS) (v1 v2 out : Path) (a : Nat),
      FS.exists fs out = false →
      Cut.stack_videos_vertical env fs v1 v2 out a = Viz.stack_videos_vertical env fs v1 v2 out a := by
  intro env fs v1 v2 out a h
  unfold Cut.stack_videos_vertical Viz.stack_videos_vertical
  rcases hm : !(FS.exists fs v1) || !(FS.exists fs v2) with _ | _ <;> simp [hm, h]

/-- C9 (witness): the amended equivalence applied at a concrete fresh
output. -/
theorem c9_witness :
    Cut.stack_videos_vertical envBase [("v1.mp4", "1"), ("v2.mp4", "2")] "v1.mp4" "v2.mp4" "out.mp4" 1 =
      Viz.stack_videos_vertical envBase [("v1.mp4", "1"), ("v2.mp4", "2")] "v1.mp4" "v2.mp4" "out.mp4" 1 :=
  c9_vertical_fresh_equivalence envBase [("v1.mp4", "1"), ("v2.mp4", "2")] "v1.mp4" "v2.mp4" "out.mp4" 1
    (by decide)

/-- C10 (counterexample): the phase-timestamp parser is not total: the
text `"1:a"` has exactly two colon-separated parts, but instead of
returning `minutes*60+seconds` (or 0), `int("a")` raises `ValueError`. -/
theorem c10_counterexample :
    (pySplit "1:a" ':').length = 2 ∧
    Cut.mmss_to_seconds "1:a" = .error .valueError := by
  refine ⟨by decide, by decide⟩

/-- C10 (amended): the parser is total only over texts whose two or
three colon-separated parts are integer numerals — two parts give
`m*60+s`, three give `h*3600+m*60+s` — while every other part count
returns 0 without raising; a non-numeral part in the two- or three-part
shapes raises `ValueError` (see the counterexample). -/
theorem c10_mmss_amended :
    (∀ (s a b : String) (x y : Int), pySplit s ':' = [a, b] →
      pyInt a = .ok x → pyInt b = .ok y →
      Cut.mmss_to_seconds s = .ok (x * 60 + y)) ∧
    (∀ (s a b c : String) (x y z : Int), pySplit s ':' = [a, b, c] →
      pyInt a = .ok x → pyInt b = .ok y → pyInt c = .ok z →
      Cut.mmss_to_seconds s = .ok (x * 3600 + y * 60 + z)) ∧
    (∀ s : String, (pySplit s ':').length ≠ 2 → (pySplit s ':').length ≠ 3 →
      Cut.mmss_to_seconds s = .ok 0) := by
  refine ⟨?_, ?_, ?_⟩
  · intro s a b x y hs ha hb
    unfold Cut.mmss_to_seconds
    rw [hs]
    simp [ha, hb]
    rfl
  · intro s a b c x y z hs ha hb hc
    unfold Cut.mmss_to_seconds
    rw [hs]
    simp [ha, hb, hc]
    rfl
  · intro s h2 h3
    unfold Cut.mmss_to_seconds
    rcases hl : pySplit s ':' with _ | ⟨a, _ | ⟨b, _ | ⟨c, _ | ⟨d, t⟩⟩⟩⟩
    · rfl
    · rfl
    · exact absurd (by rw [hl]; rfl) h2
    · exact absurd (by rw [hl]; rfl) h3
    · rfl

/-- C10 (witness): the amended parser characterization applied at
`"09:00"`, `"1:02:03"` and the shapeless `"jibberish"`. -/
theorem c10_witness :
    Cut.mmss_to_seconds "09:00" = .ok (9 * 60 + 0) ∧
    Cut.mmss_to_seconds "1:02:03" = .ok (1 * 3600 + 2 * 60 + 3) ∧
    Cut.mmss_to_seconds "jibberish" = .ok 0 :=
  ⟨c10_mmss_amended.1 "09:00" "09" "00" 9 0 (by decide) (by decide) (by decide),
   c10_mmss_amended.2.1 "1:02:03" "1" "02" "03" 1 2 3 (by decide) (by decide) (by decide) (by decide),
   c10_mmss_amended.2.2 "jibberish" (by decide) (by decide)⟩

end StillFace
